import Mathlib

/-!
Verification development for a single-endpoint LLM chat gateway
(`src/app.py`): a Flask handler that validates an inbound message,
builds provider-specific headers and payloads, dispatches to an
OpenAI-compatible or Anthropic-compatible upstream, and normalizes the
upstream JSON response into a uniform reply via an ordered list of
shape-matching rules.

The embedding models parsed JSON values (`Json`), Python scalar values
for request metadata (`Scalar`), Python dict/subscript/truthiness
semantics, the response normalizer `_extract_content`, the header
composer, the request builders, provider resolution, and the
pre-dispatch portion of the `/chat` handler.  Python `None` and JSON
`null` are the same runtime object after `json.loads`, so both are
represented by `Json.null`.  JSON numbers are represented as rationals;
no property proved here depends on the textual rendering of numbers, so
Python's float formatting is approximated in `ratPyStr`.
-/

/-- A parsed JSON value, as produced by Python's `json.loads`.
Object fields keep insertion order (Python dicts preserve it), and
`Json.null` doubles as Python's `None`. -/
inductive Json where
  | null : Json
  | bool (b : Bool) : Json
  | num (q : Rat) : Json
  | str (s : String) : Json
  | arr (elems : List Json) : Json
  | obj (fields : List (String × Json)) : Json

/-- First-match association-list lookup: Python dict indexing on the
(unique-keyed) dicts produced by `json.loads`. -/
def lookupKV {α : Type} : List (String × α) → String → Option α
  | [], _ => none
  | (k0, v) :: rest, k => if k0 = k then some v else lookupKV rest k

/-- Python truthiness of a parsed JSON value (`None`, `False`, `0`, `""`,
`[]`, and the empty dict are falsy). -/
def Json.truthy : Json → Bool
  | .null => false
  | .bool b => b
  | .num q => decide (q ≠ 0)
  | .str s => !s.isEmpty
  | .arr l => !l.isEmpty
  | .obj l => !l.isEmpty

/-- Python `a or b` on parsed JSON values: `a` when truthy, else `b`. -/
def pyOr (a b : Json) : Json := if a.truthy then a else b

/-- Python `d.get(k)` on a parsed JSON dict: the stored value, or `None`
when the key is absent (a stored JSON `null` is also `None`, hence the
collapse to `Json.null`). -/
def pyGet (kvs : List (String × Json)) (k : String) : Json :=
  (lookupKV kvs k).getD .null

/-- Python subscript `v[k]` with a string key: dict lookup, raising
(`none`) on a missing key or a non-dict receiver. -/
def pySubscript : Json → String → Option Json
  | .obj kvs, k => lookupKV kvs k
  | _, _ => none

/-- Python subscript `v[0]`: first element of a non-empty list, first
character of a non-empty string (as a 1-character string), raising
(`none`) otherwise. -/
def pyIndex0 : Json → Option Json
  | .arr (x :: _) => some x
  | .str s => if s.isEmpty then none else some (.str (s.take 1))
  | _ => none

/-- `_extract_content` rule 1 — OpenAI chat completions:
`resp_json["choices"][0]["message"]["content"]`, the whole chain wrapped
in `try/except` (`none` = an exception was raised and swallowed). -/
def rule1 (j : Json) : Option Json :=
  (((pySubscript j "choices").bind pyIndex0).bind
      (pySubscript · "message")).bind (pySubscript · "content")

/-- `_extract_content` rule 2 — OpenAI older text completion:
`resp_json["choices"][0]["text"]` wrapped in `try/except`. -/
def rule2 (j : Json) : Option Json :=
  ((pySubscript j "choices").bind pyIndex0).bind (pySubscript · "text")

/-- `_extract_content` rule 3 — OpenAI "Responses"-API style:
`out = resp_json.get("output") or resp_json.get("outputs")`, then nested
probing of `content`/`content_type`/`data` and `text`; the whole block is
wrapped in `try/except`, and `.get` on a non-dict raises. -/
def rule3 (j : Json) : Option Json :=
  match j with
  | .obj kvs =>
    match pyOr (pyGet kvs "output") (pyGet kvs "outputs") with
    | .arr (first :: _) =>
      match first with
      | .obj fkvs =>
        let c := pyOr (pyOr (pyGet fkvs "content") (pyGet fkvs "content_type"))
                      (pyGet fkvs "data")
        let maybeText : Json :=
          match c with
          | .arr (c0 :: _) =>
            match c0 with
            | .obj ckvs => pyGet ckvs "text"
            | _ => .null
          | _ => .null
        if maybeText.truthy then some maybeText
        else if (pyGet fkvs "text").truthy then some (pyGet fkvs "text")
        else none
      | _ => none
    | _ => none
  | _ => none

/-- `_extract_content` rule 4 — Anthropic legacy endpoint:
`if isinstance(resp_json, dict) and "completion" in resp_json: return
resp_json.get("completion")` (returns the stored value even when it is
`null`). -/
def rule4 (j : Json) : Option Json :=
  match j with
  | .obj kvs =>
    if (lookupKV kvs "completion").isSome then some (pyGet kvs "completion") else none
  | _ => none

/-- `_extract_content` rule 5 — generic proxy shapes: a top-level
`output` field that is a string, else any present top-level `text`
field. -/
def rule5 (j : Json) : Option Json :=
  match j with
  | .obj kvs =>
    match lookupKV kvs "output" with
    | some (.str s) => some (.str s)
    | _ => if (lookupKV kvs "text").isSome then some (pyGet kvs "text") else none
  | _ => none

/-- The scan in `_extract_content` rule 6: the first value in the dict's
values (insertion order) that is a string with `len(v) > 0`. -/
def firstNonEmptyString : List Json → Option Json
  | [] => none
  | .str s :: rest => if s.length > 0 then some (.str s) else firstNonEmptyString rest
  | _ :: rest => firstNonEmptyString rest

/-- `_extract_content` rule 6 — last resort: a top-level `message` field
when it is a string (even empty), else the first non-empty string among
the top-level values in enumeration order. -/
def rule6 (j : Json) : Option Json :=
  match j with
  | .obj kvs =>
    match lookupKV kvs "message" with
    | some (.str s) => some (.str s)
    | _ => firstNonEmptyString (kvs.map Prod.snd)
  | _ => none

/-- `_extract_content(resp_json)`: the rules in source order; the first
rule that executes a `return` statement supplies the result (even when
the returned value is `null`, the empty string, or a non-string), and
`Json.null` is the final `return None`. -/
def extractContent (j : Json) : Json :=
  (rule1 j <|> rule2 j <|> rule3 j <|> rule4 j <|> rule5 j <|> rule6 j).getD .null


/-- Python `str` of a rational JSON number.  The handler never formats a
number into any value a claim observes, so Python's exact float
formatting is approximated: integers render without a fractional part,
other rationals via `toString`. -/
def ratPyStr (q : Rat) : String :=
  if q.den = 1 then toString q.num else toString q

mutual

/-- Python `str()` of a parsed JSON structure (the `repr` of the
underlying dict/list/str/None/bool values, string escaping elided). -/
def Json.pyStr : Json → String
  | .null => "None"
  | .bool true => "True"
  | .bool false => "False"
  | .num q => ratPyStr q
  | .str s => "\x27" ++ s ++ "\x27"
  | .arr l => "[" ++ pyStrElems l ++ "]"
  | .obj l => "\x7b" ++ pyStrFields l ++ "\x7d"

/-- Comma-separated renderings of the elements of a Python list. -/
def pyStrElems : List Json → String
  | [] => ""
  | [x] => x.pyStr
  | x :: y :: rest => x.pyStr ++ ", " ++ pyStrElems (y :: rest)

/-- Comma-separated `key: value` renderings of the items of a Python
dict. -/
def pyStrFields : List (String × Json) → String
  | [] => ""
  | [(k, v)] => "\x27" ++ k ++ "\x27: " ++ v.pyStr
  | (k, v) :: y :: rest => "\x27" ++ k ++ "\x27: " ++ v.pyStr ++ ", " ++ pyStrFields (y :: rest)

end

/-- A scalar metadata value from the inbound request's `metadata`
object (the data model restricts metadata values to scalars). -/
inductive Scalar where
  | null : Scalar
  | bool (b : Bool) : Scalar
  | num (q : Rat) : Scalar
  | str (s : String) : Scalar
deriving DecidableEq

/-- Python truthiness of a metadata scalar. -/
def Scalar.truthy : Scalar → Bool
  | .null => false
  | .bool b => b
  | .num q => decide (q ≠ 0)
  | .str s => !s.isEmpty

/-- Python `str()` of a metadata scalar (as used for header values). -/
def Scalar.pyStr : Scalar → String
  | .null => "None"
  | .bool true => "True"
  | .bool false => "False"
  | .num q => ratPyStr q
  | .str s => s

/-- A metadata scalar as a JSON value (identity embedding: both model
the same Python runtime values). -/
def Scalar.toJson : Scalar → Json
  | .null => .null
  | .bool b => .bool b
  | .num q => .num q
  | .str s => .str s

/-- Python `metadata.get(k)` on the metadata dict: the stored scalar, or
`None` when absent (a stored `null` is also `None`). -/
def pyGetScalar (md : List (String × Scalar)) (k : String) : Scalar :=
  (lookupKV md k).getD .null

/-- Python `str.lower()` (ASCII case mapping). -/
def pyLower (s : String) : String :=
  String.mk (s.data.map Char.toLower)

/-- Python whitespace, as stripped by `str.strip()` (ASCII subset). -/
def isPyWhitespace (c : Char) : Bool :=
  c = ' ' || c = '\t' || c = '\n' || c = '\r' || c = '\x0b' || c = '\x0c'

/-- Python `str.strip()`: whitespace removed from both ends. -/
def pyStrip (s : String) : String :=
  String.mk (((s.data.dropWhile isPyWhitespace).reverse.dropWhile isPyWhitespace).reverse)

/-- Python `str.capitalize`: first character uppercased, the rest
lowercased. -/
def pyCapitalize (s : String) : String :=
  match s.data with
  | [] => ""
  | c :: rest => String.mk (c.toUpper :: rest.map Char.toLower)

/-- Python `k.split("_")`: split on every underscore, keeping empty
segments (`"".split("_")` is `[""]`). -/
def pySplitUnderscoreAux : List Char → List Char → List String
  | [], acc => [String.mk acc.reverse]
  | c :: rest, acc =>
    if c = '_' then String.mk acc.reverse :: pySplitUnderscoreAux rest []
    else pySplitUnderscoreAux rest (c :: acc)

/-- Python `k.split("_")` on a string. -/
def pySplitUnderscore (k : String) : List String :=
  pySplitUnderscoreAux k.data []

/-- Python `"-".join(parts)`. -/
def joinHyphen : List String → String
  | [] => ""
  | [x] => x
  | x :: y :: rest => x ++ "-" ++ joinHyphen (y :: rest)

/-- The metadata-derived header name:
`"X-" + "-".join(part.capitalize() for part in k.split("_"))`. -/
def headerName (k : String) : String :=
  "X-" ++ joinHyphen ((pySplitUnderscore k).map pyCapitalize)

/-- Python dict assignment `d[k] = v` on a header dict modelled as an
insertion-ordered association list: replace the entry in place when the
key exists, else append. -/
def setKey : List (String × String) → String → String → List (String × String)
  | [], k, v => [(k, v)]
  | (k0, v0) :: rest, k, v =>
    if k0 = k then (k, v) :: rest else (k0, v0) :: setKey rest k v

/-- Python `d.update(other)`: assign every item of `other` into `d` in
order. -/
def updateAll (base upd : List (String × String)) : List (String × String) :=
  upd.foldl (fun hs p => setKey hs p.1 p.2) base

/-- The metadata loop of the handler:
`for k, v in metadata.items(): if v is None: continue;
headers[header_name] = str(v)`. -/
def applyMetadataHeaders (hs : List (String × String))
    (metadata : List (String × Scalar)) : List (String × String) :=
  metadata.foldl
    (fun acc p =>
      match p.2 with
      | Scalar.null => acc
      | v => setKey acc (headerName p.1) v.pyStr)
    hs

/-- The handler's OpenAI-path header dict: `Authorization` +
`Content-Type`, updated with the static `AGENTCOST_HEADERS`, then the
per-request metadata headers. -/
def openaiHeaders (apiKey : String) (agentcost : List (String × String))
    (metadata : List (String × Scalar)) : List (String × String) :=
  applyMetadataHeaders
    (updateAll [("Authorization", "Bearer " ++ apiKey),
                ("Content-Type", "application/json")] agentcost)
    metadata

/-- The handler's Anthropic-path header dict: `x-api-key`, a
Bearer-style `Authorization`, and `Content-Type`, updated with the
static `AGENTCOST_HEADERS` — the per-request metadata headers are never
merged in on this path. -/
def anthropicHeaders (key : String) (agentcost : List (String × String)) :
    List (String × String) :=
  updateAll [("x-api-key", key),
             ("Authorization", "Bearer " ++ key),
             ("Content-Type", "application/json")] agentcost

/-- `SYSTEM_PROMPT`. -/
def systemPrompt : String := "You are a helpful assistant."

/-- The request payload built by the handler before provider dispatch:
hard-coded model, the system prompt followed by the (trimmed) user
message, and the literal sampling defaults `0.7` / `500`. -/
def buildOpenAIPayload (userMessage : String) : Json :=
  .obj [("model", .str "gpt-3.5-turbo"),
        ("messages", .arr
          [.obj [("role", .str "system"), ("content", .str systemPrompt)],
           .obj [("role", .str "user"), ("content", .str userMessage)]]),
        ("temperature", .num (7 / 10)),
        ("max_tokens", .num 500)]

/-- The Anthropic request payload: model from `metadata.anthropic_model`
when truthy (else the configured `ANTHROPIC_MODEL`), the flattened
prompt, and `max_tokens_to_sample` / `temperature` read back from the
OpenAI payload's literals. -/
def buildAnthropicPayload (userMessage : String)
    (metadata : List (String × Scalar)) (anthropicModel : String) : Json :=
  let m := pyGetScalar metadata "anthropic_model"
  .obj [("model", if m.truthy then m.toJson else .str anthropicModel),
        ("prompt", .str (systemPrompt ++ "\n\nHuman: " ++ userMessage ++ "\n\nAssistant:")),
        ("max_tokens_to_sample", .num 500),
        ("temperature", .num (7 / 10))]

/-- The two dispatch targets distinguished by the handler. -/
inductive Provider where
  | openai : Provider
  | anthropic : Provider
deriving DecidableEq

/-- `provider in ("anthropic", "claude")` on the lowercased provider
string selects the Anthropic path; every other string takes the OpenAI
path. -/
def classifyProvider (s : String) : Provider :=
  if s = "anthropic" ∨ s = "claude" then .anthropic else .openai

/-- `os.getenv("DEFAULT_PROVIDER", "openai") or "openai"`: the
configured default when set and non-empty, else `"openai"`. -/
def defaultProviderString (envDefault : Option String) : String :=
  let d1 := envDefault.getD "openai"
  if d1 = "" then "openai" else d1

/-- Provider resolution:
`(metadata.get("provider") or os.getenv("DEFAULT_PROVIDER", "openai")
or "openai").lower()` followed by the membership test.  A truthy
non-string metadata value reaches `.lower()` and raises an
`AttributeError`, which nothing in the handler catches (the resolution
happens before the `try` block). -/
def resolveProviderE (metadata : List (String × Scalar))
    (envDefault : Option String) : Except String Provider :=
  let mval := pyGetScalar metadata "provider"
  if mval.truthy then
    match mval with
    | .str s => .ok (classifyProvider (pyLower s))
    | _ => .error "AttributeError"
  else
    .ok (classifyProvider (pyLower (defaultProviderString envDefault)))

/-- The process-wide configuration the handler reads (loaded once from
the environment at startup; endpoints/URLs are elided — no claim
observes them). -/
structure Config where
  openaiApiKey : String
  agentcostHeaders : List (String × String)
  anthropicApiKey : Option String
  anthropicModel : String
  defaultProvider : Option String
  sdkClientAvailable : Bool

/-- What the handler has decided by the time it would perform (or skip)
the outbound network call: an early HTTP response, or one of the three
outbound-call sites with the exact headers/payload it would send. -/
inductive PreOutcome where
  | earlyResponse (status : Nat) (body : Json) : PreOutcome
  | callAnthropic (headers : List (String × String)) (payload : Json) : PreOutcome
  | callOpenAIRaw (headers : List (String × String)) (payload : Json) : PreOutcome
  | callOpenAISdk (payload : Json) : PreOutcome

/-- The fixed 400 body for an Anthropic request without a configured
credential. -/
def anthropicKeyErrorBody : Json :=
  .obj [("error", .str "Anthropic provider requested but ANTHROPIC_API_KEY not set")]

/-- The `/chat` handler from JSON-body decoding up to the outbound call:
trim-and-validate the message, build payload and headers, resolve the
provider (`Except.error` = an uncaught Python exception escaping the
handler), fail fast when Anthropic is selected without a credential
(`if not ANTHROPIC_API_KEY`, so an empty string also fails), and pick
the SDK path only when the metadata dict is empty and the SDK client
was constructed. -/
def preDispatch (cfg : Config) (message : String)
    (metadata : List (String × Scalar)) : Except String PreOutcome :=
  let userMessage := pyStrip message
  if userMessage = "" then
    .ok (.earlyResponse 400 (.obj [("error", .str "No message provided")]))
  else
    let payload := buildOpenAIPayload userMessage
    let headers := openaiHeaders cfg.openaiApiKey cfg.agentcostHeaders metadata
    match resolveProviderE metadata cfg.defaultProvider with
    | .error e => .error e
    | .ok Provider.anthropic =>
      match cfg.anthropicApiKey with
      | none => .ok (.earlyResponse 400 anthropicKeyErrorBody)
      | some key =>
        if key = "" then .ok (.earlyResponse 400 anthropicKeyErrorBody)
        else .ok (.callAnthropic (anthropicHeaders key cfg.agentcostHeaders)
                    (buildAnthropicPayload userMessage metadata cfg.anthropicModel))
    | .ok Provider.openai =>
      if metadata.isEmpty && cfg.sdkClientAvailable then .ok (.callOpenAISdk payload)
      else .ok (.callOpenAIRaw headers payload)

/-- The handler's treatment of a parsed upstream JSON body on the raw
HTTP paths: `content = _extract_content(j); if content is None`, a 502
`Unexpected response shape` error carrying the upstream status and the
original body, else `200 {"reply": content}`.  `status` is the upstream
HTTP status code, carried opaquely into the diagnostic body. -/
def gatewayRespond (status : Rat) (j : Json) : Nat × Json :=
  match extractContent j with
  | .null => (502, .obj [("error", .str "Unexpected response shape"),
                         ("status", .num status),
                         ("body", j)])
  | c => (200, .obj [("reply", c)])

/-- The SDK-path treatment of an upstream response (the `isinstance(sdk_resp, dict)`
branch, which is the one comparable to the raw path on identical parsed
JSON): the same `choices[0].message.content` chain under `try/except`,
then `200 {"reply": content}` when content is not `None`, else
`200 {"reply": str(sdk_resp)}`. -/
def sdkRespond (sdkResp : Json) : Nat × Json :=
  match (rule1 sdkResp).getD .null with
  | .null => (200, .obj [("reply", .str sdkResp.pyStr)])
  | c => (200, .obj [("reply", c)])


/-! ## Claims C1 and C2: short-circuiting and rule order of the normalizer -/

/-- C1 counterexample.  The claim states that a rule failing to produce
a non-null string cannot stop later rules, and that extraction always
yields NotFound or a non-empty string.  The code contradicts both: with
`choices[0].message.content` present but `null`, the subscript chain
returns without raising, so extraction yields `None` (NotFound) even
though the later `completion` rule would have produced `"B"`; with the
content present but the empty string, extraction yields the empty
string. -/
theorem c1_counterexample :
    extractContent (.obj [("choices", .arr [.obj [("message", .obj [("content", .null)])]]),
                          ("completion", .str "B")]) = Json.null
    ∧ pySubscript (.obj [("choices", .arr [.obj [("message", .obj [("content", .null)])]]),
                         ("completion", .str "B")]) "completion" = some (.str "B")
    ∧ extractContent (.obj [("choices", .arr [.obj [("message", .obj [("content", .str "")])]]),
                            ("completion", .str "B")]) = Json.str "" :=
  ⟨rfl, rfl, rfl⟩

/-- C1 (amended).  A rule that raises while navigating (missing key,
wrong type, empty sequence) does not prevent the subsequent rules from
being attempted, and when every rule falls through the result is
NotFound; but a rule whose navigation succeeds short-circuits with
whatever value it found — including `null` (reported as NotFound without
trying later rules), the empty string, or a non-string value. -/
theorem c1_amended_rule_chain (j : Json) :
    (∀ v, rule1 j = some v → extractContent j = v)
    ∧ (rule1 j = none → ∀ v, rule2 j = some v → extractContent j = v)
    ∧ (rule1 j = none → rule2 j = none → ∀ v, rule3 j = some v → extractContent j = v)
    ∧ (rule1 j = none → rule2 j = none → rule3 j = none →
        ∀ v, rule4 j = some v → extractContent j = v)
    ∧ (rule1 j = none → rule2 j = none → rule3 j = none → rule4 j = none →
        ∀ v, rule5 j = some v → extractContent j = v)
    ∧ (rule1 j = none → rule2 j = none → rule3 j = none → rule4 j = none → rule5 j = none →
        ∀ v, rule6 j = some v → extractContent j = v)
    ∧ (rule1 j = none → rule2 j = none → rule3 j = none → rule4 j = none → rule5 j = none →
        rule6 j = none → extractContent j = Json.null) := by
  refine ⟨?_, ?_, ?_, ?_, ?_, ?_, ?_⟩ <;> intros <;> simp_all [extractContent]

/-- C1 witness: with `choices[0].message.content` present but `null`,
rule 1 returns that `null` and extraction reports NotFound. -/
theorem c1_witness :
    extractContent (.obj [("choices", .arr [.obj [("message", .obj [("content", .null)])]]),
                          ("completion", .str "B")]) = Json.null :=
  (c1_amended_rule_chain _).1 Json.null rfl

/-- C2: the chat-completions shape is tried first, so whenever
`choices[0].message.content` holds a string the rest of the body —
including a legacy `completion` field — is irrelevant; in particular the
spec's example with both shapes extracts `"A"`. -/
theorem c2_chat_shape_priority (a : String) (rest : List (String × Json)) :
    extractContent (.obj (("choices",
        .arr [.obj [("message", .obj [("content", .str a)])]]) :: rest)) = .str a
    ∧ extractContent (.obj [("choices", .arr [.obj [("message", .obj [("content", .str "A")])]]),
                            ("completion", .str "B")]) = .str "A" :=
  ⟨rfl, rfl⟩

/-! ## Claim C3: 502 on unrecognized shapes -/

/-- C3: whenever no extraction rule matches, the gateway answers 502
with `error` fixed to `Unexpected response shape`, `status` the upstream
HTTP status, and `body` the original parsed upstream structure. -/
theorem c3_unexpected_shape_502 (status : Rat) (j : Json)
    (h : extractContent j = Json.null) :
    gatewayRespond status j =
      (502, .obj [("error", .str "Unexpected response shape"),
                  ("status", .num status),
                  ("body", j)]) := by
  unfold gatewayRespond
  rw [h]

/-- C3 witness: the body from the spec's example, `{"choices": []}`,
matches no rule, and the gateway echoes it under `body` with the
upstream status. -/
theorem c3_witness :
    gatewayRespond 404 (.obj [("choices", .arr [])]) =
      (502, .obj [("error", .str "Unexpected response shape"),
                  ("status", .num 404),
                  ("body", .obj [("choices", .arr [])])]) :=
  c3_unexpected_shape_502 404 _ rfl

/-! ## Claim C4: the last-resort heuristic -/

/-- C4: when rules 1 through 5 all fall through and the top-level
`message` field is absent or not a string, extraction returns the first
string-typed non-empty value among the top-level fields in enumeration
order. -/
theorem c4_last_resort_first_string (kvs : List (String × Json)) (w : Json)
    (h1 : rule1 (.obj kvs) = none) (h2 : rule2 (.obj kvs) = none)
    (h3 : rule3 (.obj kvs) = none) (h4 : rule4 (.obj kvs) = none)
    (h5 : rule5 (.obj kvs) = none)
    (h6 : ∀ s, lookupKV kvs "message" ≠ some (Json.str s))
    (h7 : firstNonEmptyString (kvs.map Prod.snd) = some w) :
    extractContent (.obj kvs) = w := by
  have h6' : rule6 (.obj kvs) = some w := by
    have hred : rule6 (.obj kvs) =
        (match lookupKV kvs "message" with
         | some (.str s) => some (.str s)
         | _ => firstNonEmptyString (kvs.map Prod.snd)) := rfl
    rw [hred]
    cases hm : lookupKV kvs "message" with
    | none => exact h7
    | some v =>
      cases v
      case str s => exact absurd hm (h6 s)
      all_goals exact h7
  simp [extractContent, h1, h2, h3, h4, h5, h6']

/-- C4 witness: the spec's example — no recognized field, so the first
non-empty string value in enumeration order (`id`, which appears first)
is returned. -/
theorem c4_witness :
    extractContent (.obj [("id", .str "x1"), ("model", .str "m"),
                          ("note", .str "hi there")]) = .str "x1" :=
  c4_last_resort_first_string _ _ rfl rfl rfl rfl rfl
    (fun _ h => Option.noConfusion h) rfl

/-! ## Claim C5: SDK path versus raw-HTTP path -/

/-- C5 counterexample.  The claim states the SDK-backed path and the
raw-HTTP path are observationally equivalent on identical upstream
responses.  On the body `{"choices": []}` the raw path answers 502
(unexpected shape) while the SDK path answers 200 with the stringified
response, so the two paths are not equivalent. -/
theorem c5_counterexample :
    sdkRespond (.obj [("choices", .arr [])]) ≠ gatewayRespond 200 (.obj [("choices", .arr [])])
    ∧ (sdkRespond (.obj [("choices", .arr [])])).1 = 200
    ∧ (gatewayRespond 200 (.obj [("choices", .arr [])])).1 = 502 :=
  ⟨fun h => absurd (congrArg Prod.fst h) (by decide), rfl, rfl⟩

/-- C5 (amended): the two code paths agree exactly when the upstream
JSON carries a non-null `choices[0].message.content`; then both answer
`200` with that content as the reply, independent of the upstream
status.  Otherwise they diverge (the raw path falls through to further
rules or a 502, the SDK path stringifies the whole response). -/
theorem c5_amended_sdk_raw_agree (status : Rat) (j v : Json)
    (h : rule1 j = some v) (hv : v ≠ Json.null) :
    sdkRespond j = gatewayRespond status j := by
  have he : extractContent j = v := by simp [extractContent, h]
  have hs : (rule1 j).getD Json.null = v := by rw [h]; rfl
  unfold sdkRespond gatewayRespond
  rw [hs, he]
  cases v <;> first | exact absurd rfl hv | rfl

/-- C5 witness: on the well-formed chat-completions body both paths
return `200 {"reply": "hello!"}`. -/
theorem c5_witness :
    sdkRespond (.obj [("choices", .arr [.obj [("message", .obj [("content", .str "hello!")])]])]) =
      gatewayRespond 200
        (.obj [("choices", .arr [.obj [("message", .obj [("content", .str "hello!")])]])]) :=
  c5_amended_sdk_raw_agree 200 _ (Json.str "hello!") rfl (fun h => Json.noConfusion h)

/-! ## Claim C6: the OpenAI-compatible request body -/

/-- C6 counterexample.  The claim states the body's `temperature` equals
`metadata.temperature` when present.  The payload is built before the
provider branch from the user message alone, with the literals `0.7`
and `500`; a metadata temperature of `0.2` is ignored. -/
theorem c6_counterexample :
    pySubscript (buildOpenAIPayload "hi") "temperature" = some (Json.num (7 / 10))
    ∧ pyGetScalar [("temperature", Scalar.num (2 / 10))] "temperature" = Scalar.num (2 / 10)
    ∧ (7 / 10 : Rat) ≠ 2 / 10 :=
  ⟨rfl, rfl, by norm_num⟩

/-- C6 (amended): for every non-empty message the body's `messages`
list is exactly the system prompt followed by the unmodified user
message, and `temperature` and `max_tokens` are always the configured
defaults `0.7` and `500` — metadata is never consulted when building
this payload. -/
theorem c6_amended_payload_fixed_defaults (msg : String) (_hmsg : msg ≠ "") :
    pySubscript (buildOpenAIPayload msg) "messages" =
      some (.arr [.obj [("role", .str "system"), ("content", .str systemPrompt)],
                  .obj [("role", .str "user"), ("content", .str msg)]])
    ∧ pySubscript (buildOpenAIPayload msg) "temperature" = some (.num (7 / 10))
    ∧ pySubscript (buildOpenAIPayload msg) "max_tokens" = some (.num 500) :=
  ⟨rfl, rfl, rfl⟩

/-- C6 witness: the payload fields at the concrete message `"hi"`. -/
theorem c6_witness :
    pySubscript (buildOpenAIPayload "hi") "messages" =
      some (.arr [.obj [("role", .str "system"), ("content", .str systemPrompt)],
                  .obj [("role", .str "user"), ("content", .str "hi")]])
    ∧ pySubscript (buildOpenAIPayload "hi") "temperature" = some (.num (7 / 10))
    ∧ pySubscript (buildOpenAIPayload "hi") "max_tokens" = some (.num 500) :=
  c6_amended_payload_fixed_defaults "hi" (by decide)

/-! ## Claim C7: metadata-derived headers -/

/-- Assigning a key into a header dict makes lookup of that key return
the assigned value. -/
theorem lookupKV_setKey_self (hs : List (String × String)) (k v : String) :
    lookupKV (setKey hs k v) k = some v := by
  induction hs with
  | nil => simp [setKey, lookupKV]
  | cons p rest ih =>
    obtain ⟨k0, v0⟩ := p
    by_cases h : k0 = k <;> simp [setKey, lookupKV, h, ih]

/-- Assigning one key leaves lookups of other keys unchanged. -/
theorem lookupKV_setKey_ne (hs : List (String × String)) (k0 k v : String)
    (h : k0 ≠ k) :
    lookupKV (setKey hs k0 v) k = lookupKV hs k := by
  induction hs with
  | nil => simp [setKey, lookupKV, h]
  | cons p rest ih =>
    obtain ⟨k1, v1⟩ := p
    by_cases h1 : k1 = k0 <;> simp [setKey, lookupKV, h, h1, ih]

/-- The metadata-header loop distributes over list append. -/
theorem applyMetadataHeaders_append (hs : List (String × String))
    (l1 l2 : List (String × Scalar)) :
    applyMetadataHeaders hs (l1 ++ l2) =
      applyMetadataHeaders (applyMetadataHeaders hs l1) l2 := by
  simp [applyMetadataHeaders, List.foldl_append]

/-- A run of metadata entries none of which derives the header name `n`
(null entries derive nothing) leaves the lookup of `n` unchanged. -/
theorem lookupKV_applyMetadataHeaders_ne (md : List (String × Scalar))
    (hs : List (String × String)) (n : String)
    (h : ∀ p ∈ md, p.2 ≠ Scalar.null → headerName p.1 ≠ n) :
    lookupKV (applyMetadataHeaders hs md) n = lookupKV hs n := by
  induction md generalizing hs with
  | nil => rfl
  | cons p rest ih =>
    obtain ⟨k0, v0⟩ := p
    have hrest : ∀ p ∈ rest, p.2 ≠ Scalar.null → headerName p.1 ≠ n :=
      fun p hp => h p (List.mem_cons_of_mem _ hp)
    cases v0 with
    | null => simpa [applyMetadataHeaders] using ih hs hrest
    | bool b =>
      have hk : headerName k0 ≠ n := h (k0, .bool b) (List.mem_cons_self _ _) (by simp)
      simpa [applyMetadataHeaders] using
        (ih (setKey hs (headerName k0) (Scalar.bool b).pyStr) hrest).trans
          (lookupKV_setKey_ne hs (headerName k0) n _ hk)
    | num q =>
      have hk : headerName k0 ≠ n := h (k0, .num q) (List.mem_cons_self _ _) (by simp)
      simpa [applyMetadataHeaders] using
        (ih (setKey hs (headerName k0) (Scalar.num q).pyStr) hrest).trans
          (lookupKV_setKey_ne hs (headerName k0) n _ hk)
    | str s =>
      have hk : headerName k0 ≠ n := h (k0, .str s) (List.mem_cons_self _ _) (by simp)
      simpa [applyMetadataHeaders] using
        (ih (setKey hs (headerName k0) (Scalar.str s).pyStr) hrest).trans
          (lookupKV_setKey_ne hs (headerName k0) n _ hk)

/-- After the metadata loop, the header derived from a non-null entry
holds the stringified value, provided no later non-null entry derives
the same header name. -/
theorem lookupKV_applyMetadataHeaders_last (hs : List (String × String))
    (md1 md2 : List (String × Scalar)) (k : String) (v : Scalar)
    (hv : v ≠ Scalar.null)
    (hcol : ∀ p ∈ md2, p.2 ≠ Scalar.null → headerName p.1 ≠ headerName k) :
    lookupKV (applyMetadataHeaders hs (md1 ++ (k, v) :: md2)) (headerName k) =
      some v.pyStr := by
  rw [applyMetadataHeaders_append]
  have hcons : applyMetadataHeaders (applyMetadataHeaders hs md1) ((k, v) :: md2) =
      applyMetadataHeaders
        (setKey (applyMetadataHeaders hs md1) (headerName k) v.pyStr) md2 := by
    cases v with
    | null => exact absurd rfl hv
    | bool b => rfl
    | num q => rfl
    | str s => rfl
  rw [hcons, lookupKV_applyMetadataHeaders_ne md2 _ _ hcol, lookupKV_setKey_self]

/-- C7 counterexample.  The claim quantifies over both providers, but
the Anthropic dispatch path builds its headers from the credential and
the static proxy headers only — the metadata loop writes into the
OpenAI header dict, which the Anthropic call never uses.  With a
non-null `agent_name` metadata entry, the dispatched Anthropic call
carries no `X-Agent-Name` header. -/
theorem c7_counterexample :
    preDispatch ⟨"sk", [], some "ak", "claude-2", none, true⟩ "hi"
        [("provider", Scalar.str "anthropic"), ("agent_name", Scalar.str "bot1")] =
      .ok (.callAnthropic (anthropicHeaders "ak" [])
            (buildAnthropicPayload "hi"
              [("provider", Scalar.str "anthropic"), ("agent_name", Scalar.str "bot1")]
              "claude-2"))
    ∧ lookupKV (anthropicHeaders "ak" []) (headerName "agent_name") = none :=
  ⟨rfl, rfl⟩

/-- C7 (amended): on the OpenAI-compatible dispatch path (the only path
whose outbound call uses the metadata-merged header dict), every
non-null metadata entry contributes the header `X-`-joined-capitalized
name with the stringified value, overriding the credential and static
headers — provided no later non-null metadata entry derives the same
header name; null entries contribute nothing. -/
theorem c7_amended_openai_metadata_headers (cfg : Config) (msg : String)
    (md1 md2 : List (String × Scalar)) (k : String) (v : Scalar)
    (hmsg : pyStrip msg ≠ "")
    (hres : resolveProviderE (md1 ++ (k, v) :: md2) cfg.defaultProvider = .ok .openai)
    (hv : v ≠ Scalar.null)
    (hcol : ∀ p ∈ md2, p.2 ≠ Scalar.null → headerName p.1 ≠ headerName k) :
    preDispatch cfg msg (md1 ++ (k, v) :: md2) =
      .ok (.callOpenAIRaw
            (openaiHeaders cfg.openaiApiKey cfg.agentcostHeaders (md1 ++ (k, v) :: md2))
            (buildOpenAIPayload (pyStrip msg)))
    ∧ lookupKV (openaiHeaders cfg.openaiApiKey cfg.agentcostHeaders (md1 ++ (k, v) :: md2))
        (headerName k) = some v.pyStr := by
  constructor
  · have hne : (md1 ++ (k, v) :: md2).isEmpty = false := by simp
    simp [preDispatch, hmsg, hres, hne]
  · show lookupKV
      (applyMetadataHeaders
        (updateAll [("Authorization", "Bearer " ++ cfg.openaiApiKey),
                    ("Content-Type", "application/json")] cfg.agentcostHeaders)
        (md1 ++ (k, v) :: md2)) (headerName k) = some v.pyStr
    exact lookupKV_applyMetadataHeaders_last _ md1 md2 k v hv hcol

/-- C7 witness: the spec's example metadata
`agent_name = "bot1", retries = null` on the OpenAI path yields a
dispatched call whose headers map `X-Agent-Name` to `bot1` (the header
derived from `retries` does not arise: the entry is null). -/
theorem c7_witness :
    preDispatch ⟨"sk", [], none, "claude-2", none, true⟩ "hi"
        [("agent_name", Scalar.str "bot1"), ("retries", Scalar.null)] =
      .ok (.callOpenAIRaw
            (openaiHeaders "sk" [] [("agent_name", Scalar.str "bot1"), ("retries", Scalar.null)])
            (buildOpenAIPayload "hi"))
    ∧ lookupKV (openaiHeaders "sk" [] [("agent_name", Scalar.str "bot1"), ("retries", Scalar.null)])
        "X-Agent-Name" = some "bot1" :=
  c7_amended_openai_metadata_headers ⟨"sk", [], none, "claude-2", none, true⟩ "hi"
    [] [("retries", Scalar.null)] "agent_name" (Scalar.str "bot1")
    (by decide) rfl (by decide) (by decide)

/-! ## Claims C8, C9, C10: provider dispatch and resolution -/

/-- C8: whenever the resolved provider is Anthropic and no Anthropic
credential is configured, the handler answers 400 with the fixed error
message and never reaches an outbound-call site (the result is an
`earlyResponse`, not one of the `call…` outcomes). -/
theorem c8_anthropic_missing_key_400 (cfg : Config) (msg : String)
    (md : List (String × Scalar))
    (hmsg : pyStrip msg ≠ "")
    (hres : resolveProviderE md cfg.defaultProvider = .ok .anthropic)
    (hkey : cfg.anthropicApiKey = none) :
    preDispatch cfg msg md =
      .ok (.earlyResponse 400
        (.obj [("error",
          .str "Anthropic provider requested but ANTHROPIC_API_KEY not set")])) := by
  simp [preDispatch, hmsg, hres, hkey, anthropicKeyErrorBody]

/-- C8 witness: an explicit `provider = "anthropic"` request against a
configuration with no Anthropic key. -/
theorem c8_witness :
    preDispatch ⟨"sk", [], none, "claude-2", none, true⟩ "hi"
        [("provider", Scalar.str "anthropic")] =
      .ok (.earlyResponse 400
        (.obj [("error",
          .str "Anthropic provider requested but ANTHROPIC_API_KEY not set")])) :=
  c8_anthropic_missing_key_400 _ _ _ (by decide) rfl rfl

/-- C9 counterexample.  The claim says resolution takes
`metadata.provider` when present.  The code tests Python truthiness, so
a present-but-empty provider string is skipped in favour of the
configured default: with `provider = ""` and default `"anthropic"`, the
claim predicts the OpenAI fallback (`""` is unrecognized) but the code
resolves to Anthropic. -/
theorem c9_counterexample :
    lookupKV [("provider", Scalar.str "")] "provider" = some (Scalar.str "")
    ∧ classifyProvider (pyLower "") = Provider.openai
    ∧ resolveProviderE [("provider", Scalar.str "")] (some "anthropic") =
        Except.ok Provider.anthropic
    ∧ Provider.openai ≠ Provider.anthropic :=
  ⟨rfl, rfl, rfl, by decide⟩

/-- C9 (amended): resolution takes `metadata.provider` when it is
present as a non-empty string, else the configured default when set and
non-empty, else `"openai"`; the chosen string is lowercased and matched
against `anthropic`/`claude` (so matching is case-insensitive and
`claude` aliases to Anthropic), and every other string falls back to
the OpenAI path. -/
theorem c9_amended_provider_resolution (md : List (String × Scalar)) (d : Option String) :
    (∀ s : String, lookupKV md "provider" = some (Scalar.str s) → s ≠ "" →
        resolveProviderE md d = .ok (classifyProvider (pyLower s)))
    ∧ (lookupKV md "provider" = none →
        resolveProviderE md d = .ok (classifyProvider (pyLower (defaultProviderString d))))
    ∧ classifyProvider "claude" = Provider.anthropic
    ∧ classifyProvider "anthropic" = Provider.anthropic
    ∧ (∀ s : String, s ≠ "anthropic" → s ≠ "claude" → classifyProvider s = Provider.openai) := by
  refine ⟨?_, ?_, rfl, rfl, ?_⟩
  · intro s hs hne
    have hval : pyGetScalar md "provider" = Scalar.str s := by
      simp [pyGetScalar, hs]
    have hemp : s.isEmpty = false := by
      cases hse : s.isEmpty
      · rfl
      · exact absurd ((String.isEmpty_iff s).mp hse) hne
    simp [resolveProviderE, hval, Scalar.truthy, hemp]
  · intro h
    simp [resolveProviderE, pyGetScalar, h, Scalar.truthy]
  · intro s h1 h2
    simp [classifyProvider, h1, h2]

/-- C9 witness: `provider = "Claude"` resolves to the Anthropic path
(case-insensitive alias matching). -/
theorem c9_witness :
    resolveProviderE [("provider", Scalar.str "Claude")] none = .ok Provider.anthropic :=
  (c9_amended_provider_resolution [("provider", Scalar.str "Claude")] none).1
    "Claude" rfl (by decide)

/-- C10: with `metadata.provider` a (truthy) number, provider resolution
calls `.lower()` on a non-string and raises an `AttributeError`; the
resolution happens before the handler's `try` block, so the exception
escapes the handler instead of becoming any structured error response. -/
theorem c10_nonstring_provider_uncaught :
    preDispatch ⟨"sk", [], some "ak", "claude-2", none, true⟩ "hi"
        [("provider", Scalar.num 5)] = Except.error "AttributeError"
    ∧ resolveProviderE [("provider", Scalar.num 5)] none = Except.error "AttributeError" :=
  ⟨rfl, rfl⟩
